import Mathlib

/-!
Verification development for the MIDI_DJ control surface
(`src/components/PromptDjMidi.ts`).

Modelling conventions:
* JavaScript numbers are modelled as exact rationals (`ℚ`) for weights and
  as integers (`ℤ`) for MIDI controller numbers and data bytes.  The one
  floating-point operation the spec cares about, `value / 127`, is modelled
  as exact rational division, matching the spec's "the division's natural
  result, no further rounding or clamping".
* The `Map<string, Prompt>` with its insertion iteration order is modelled
  as an association list `List (String × Prompt)`; `Map.prototype.values()`
  iteration order is the list order, and `Map.prototype.get` is lookup of
  the first (unique) occurrence of the key.
* `dispatchEvent` calls are modelled by returning the list of events the
  call emits, in order; the `detail` payload of a `prompts-changed` event
  is the whole prompt collection object at dispatch time.
* A JavaScript call that may throw is modelled with `JsResult`.
-/

namespace PromptDjMidi

/-- A prompt, as used by `PromptDjMidi`: stable id, label text, normalized
weight, display color and an optional bound MIDI CC number
(`prompt.cc` is `undefined` when unset, modelled as `none`). -/
structure Prompt where
  promptId : String
  text : String
  weight : ℚ
  color : String
  cc : Option ℤ
deriving DecidableEq, Repr

/-- The `prompts` field: `Map<string, Prompt>` keyed by promptId, in
insertion order. -/
abbrev PromptCollection := List (String × Prompt)

/-- Events dispatched by the component that the claims mention.  A
`prompts-changed` event carries the entire current prompt collection as
its `detail`. -/
inductive EmittedEvent where
  | promptsChanged (detail : PromptCollection)
deriving DecidableEq, Repr

/-- The loop body of `handleMidiControlChange`: scan `prompts.values()` in
order; at the first prompt with `prompt.cc === cc` set
`prompt.weight = value / 127` and stop (`break`).  Returns `none` when no
prompt matches (the loop falls through without mutating or dispatching). -/
def updateFirstMatch (cc : ℤ) (value : ℤ) : PromptCollection → Option PromptCollection
  | [] => none
  | (k, p) :: rest =>
    if p.cc = some cc then
      some ((k, { p with weight := (value : ℚ) / 127 }) :: rest)
    else
      (updateFirstMatch cc value rest).map (fun r => (k, p) :: r)

/-- `handleMidiControlChange(cc, value)` from `PromptDjMidi.ts` lines
139–148: update the first prompt bound to `cc` (if any) and dispatch one
`prompts-changed` event carrying the whole updated collection; if no
prompt matches, do nothing and dispatch nothing.  Returns the collection
after the call together with the events emitted by the call. -/
def handleMidiControlChange (prompts : PromptCollection) (cc : ℤ) (value : ℤ) :
    PromptCollection × List EmittedEvent :=
  match updateFirstMatch cc value prompts with
  | none => (prompts, [])
  | some updated => (updated, [EmittedEvent.promptsChanged updated])

/-- `this.prompts.get(promptId)` hit test: does the map hold the key. -/
def hasId (prompts : PromptCollection) (promptId : String) : Bool :=
  prompts.any (fun kp => kp.1 = promptId)

/-- In-place `prompt.weight = weight` on the entry returned by
`prompts.get(promptId)` (the first occurrence of the key). -/
def setWeightById (promptId : String) (weight : ℚ) : PromptCollection → PromptCollection
  | [] => []
  | (k, p) :: rest =>
    if k = promptId then (k, { p with weight := weight }) :: rest
    else (k, p) :: setWeightById promptId weight rest

/-- `handleSliderChange(promptId, weight)` from `PromptDjMidi.ts` lines
150–157: look the prompt up by id; if found set its weight directly and
dispatch one `prompts-changed` event with the whole collection; if not
found the call is a silent no-op. -/
def handleSliderChange (prompts : PromptCollection) (promptId : String) (weight : ℚ) :
    PromptCollection × List EmittedEvent :=
  if hasId prompts promptId then
    let updated := setWeightById promptId weight prompts
    (updated, [EmittedEvent.promptsChanged updated])
  else
    (prompts, [])

/-- A node of the rendered output tree, at the granularity the claims
need: the static no-MIDI fallback notice, one slider per prompt, and the
fixed controls. -/
inductive Node where
  | noMidiNotice
  | promptSlider (promptId : String) (text : String) (weight : ℚ) (color : String)
  | playPauseButton
  | visualizer
  | filteredPromptListElement
  | repubInfo
deriving DecidableEq, Repr

/-- `renderSliders()` (lines 193–205): one `prompt-slider` per prompt, in
collection order, projecting the prompt's fields. -/
def renderSliders (prompts : PromptCollection) : List Node :=
  prompts.map (fun kp => Node.promptSlider kp.2.promptId kp.2.text kp.2.weight kp.2.color)

/-- `render()` (lines 172–191): branch on `midiSupported` — sliders when
supported, the static `.no-midi` notice otherwise — followed by the fixed
controls (play/pause button, visualizer, filtered-prompt-list, footer). -/
def render (midiSupported : Bool) (prompts : PromptCollection) : List Node :=
  (if midiSupported then renderSliders prompts else [Node.noMidiNotice]) ++
    [Node.playPauseButton, Node.visualizer, Node.filteredPromptListElement, Node.repubInfo]

/-- Is this node a slider control? -/
def Node.isSlider : Node → Bool
  | promptSlider _ _ _ _ => true
  | _ => false

/-- Modelled from the spec: the `filtered-prompt-list` component is not
under `src/` (only its caller `addFilteredPrompt` is); per the spec it
holds "an auxiliary set of prompt texts flagged (by the host) as
filtered/excluded". -/
structure FilteredPromptList where
  texts : List String
deriving DecidableEq, Repr

/-- Modelled from the spec: `addPrompt` flags one more prompt text as
filtered (set insertion, purely presentational). -/
def FilteredPromptList.addPrompt (l : FilteredPromptList) (t : String) : FilteredPromptList :=
  if t ∈ l.texts then l else { texts := l.texts ++ [t] }

/-- Result of a JavaScript call that may throw. -/
inductive JsResult (α : Type) where
  | ok (value : α)
  | thrown (message : String)
deriving DecidableEq, Repr

/-- Did the call throw? -/
def JsResult.throws {α : Type} : JsResult α → Bool
  | thrown _ => true
  | ok _ => false

/-- `addFilteredPrompt(prompt)` from `PromptDjMidi.ts` lines 167–170:
`this.shadowRoot?.querySelector('filtered-prompt-list')` may yield no
element (modelled by the `queried` argument being `none`, e.g. before the
first render); the code then calls `.addPrompt` on `undefined`, which
throws a `TypeError`.  When the element is found, its `addPrompt` runs. -/
def addFilteredPrompt (queried : Option FilteredPromptList) (prompt : String) :
    JsResult FilteredPromptList :=
  match queried with
  | none => JsResult.thrown "TypeError"
  | some l => JsResult.ok (l.addPrompt prompt)

/-! ### Helper lemmas about the update loop -/

/-- When no prompt in the collection is bound to `cc`, the scan of
`handleMidiControlChange` finds nothing. -/
lemma updateFirstMatch_eq_none (cc value : ℤ) :
    ∀ s : PromptCollection, (∀ kp ∈ s, kp.2.cc ≠ some cc) →
      updateFirstMatch cc value s = none := by
  intro s h
  induction s with
  | nil => rfl
  | cons hd tl ih =>
    obtain ⟨k, p⟩ := hd
    have hhd : p.cc ≠ some cc := h (k, p) (List.mem_cons_self _ _)
    simp only [updateFirstMatch, if_neg hhd]
    rw [ih (fun kp hkp => h kp (List.mem_cons_of_mem _ hkp))]
    rfl

/-- When some prompt in the collection is bound to `cc`, the scan finds a
match. -/
lemma updateFirstMatch_isSome (cc value : ℤ) :
    ∀ s : PromptCollection, (∃ kp ∈ s, kp.2.cc = some cc) →
      (updateFirstMatch cc value s).isSome = true := by
  intro s h
  induction s with
  | nil => simp at h
  | cons hd tl ih =>
    obtain ⟨k, p⟩ := hd
    by_cases hhd : p.cc = some cc
    · simp [updateFirstMatch, if_pos hhd]
    · simp only [updateFirstMatch, if_neg hhd]
      have htl : ∃ kp ∈ tl, kp.2.cc = some cc := by
        obtain ⟨kp, hkp, hcc⟩ := h
        rcases List.mem_cons.mp hkp with rfl | hmem
        · exact absurd hcc hhd
        · exact ⟨kp, hmem, hcc⟩
      obtain ⟨r, hr⟩ := Option.isSome_iff_exists.mp (ih htl)
      simp [hr]

/-- Pointwise characterization of a successful scan: when position `i`
holds the first prompt bound to `cc`, the scan succeeds, position `i` of
the result holds the same key and the same prompt with only its weight
replaced by `value / 127`, and every other position is untouched. -/
lemma updateFirstMatch_get? (cc value : ℤ) :
    ∀ (s : PromptCollection) (i : ℕ) (k : String) (p : Prompt),
      (∀ m, m < i → ∀ kp, s.get? m = some kp → kp.2.cc ≠ some cc) →
      s.get? i = some (k, p) →
      p.cc = some cc →
      ∃ updated, updateFirstMatch cc value s = some updated ∧
        updated.get? i = some (k, { p with weight := (value : ℚ) / 127 }) ∧
        ∀ j, j ≠ i → updated.get? j = s.get? j := by
  intro s
  induction s with
  | nil => intro i k p _ hget; simp at hget
  | cons hd tl ih =>
    intro i k p hfirst hget hmatch
    obtain ⟨k0, p0⟩ := hd
    cases i with
    | zero =>
      simp only [List.get?_cons_zero, Option.some.injEq, Prod.mk.injEq] at hget
      obtain ⟨hk, hp⟩ := hget
      have hmatch0 : p0.cc = some cc := by rw [hp]; exact hmatch
      refine ⟨(k0, { p0 with weight := (value : ℚ) / 127 }) :: tl, ?_, ?_, ?_⟩
      · simp [updateFirstMatch, if_pos hmatch0]
      · simp [hk, hp]
      · intro j hj
        cases j with
        | zero => exact absurd rfl hj
        | succ n => rfl
    | succ n =>
      have hhd : p0.cc ≠ some cc :=
        hfirst 0 (Nat.succ_pos n) (k0, p0) rfl
      have hfirst' : ∀ m, m < n → ∀ kp, tl.get? m = some kp → kp.2.cc ≠ some cc := by
        intro m hm kp hkp
        exact hfirst (m + 1) (Nat.succ_lt_succ hm) kp hkp
      have hget' : tl.get? n = some (k, p) := hget
      obtain ⟨updated, hu, hgi, hothers⟩ := ih n k p hfirst' hget' hmatch
      refine ⟨(k0, p0) :: updated, ?_, ?_, ?_⟩
      · simp [updateFirstMatch, if_neg hhd, hu]
      · exact hgi
      · intro j hj
        cases j with
        | zero => rfl
        | succ m =>
          have hm : m ≠ n := fun h => hj (by rw [h])
          exact hothers m hm

/-- The scan never adds, removes or re-keys entries. -/
lemma updateFirstMatch_map_fst (cc value : ℤ) :
    ∀ (s updated : PromptCollection), updateFirstMatch cc value s = some updated →
      updated.map Prod.fst = s.map Prod.fst := by
  intro s
  induction s with
  | nil => intro updated h; simp [updateFirstMatch] at h
  | cons hd tl ih =>
    intro updated h
    obtain ⟨k, p⟩ := hd
    by_cases hhd : p.cc = some cc
    · simp only [updateFirstMatch, if_pos hhd, Option.some.injEq] at h
      subst h
      rfl
    · simp only [updateFirstMatch, if_neg hhd, Option.map_eq_some'] at h
      obtain ⟨r, hr, hcons⟩ := h
      subst hcons
      simp [ih r hr]

/-- Every entry of a successful scan's result is either an original entry
or carries weight `value / 127`. -/
lemma mem_updateFirstMatch (cc value : ℤ) :
    ∀ (s updated : PromptCollection), updateFirstMatch cc value s = some updated →
      ∀ kp ∈ updated, kp ∈ s ∨ kp.2.weight = (value : ℚ) / 127 := by
  intro s
  induction s with
  | nil => intro updated h; simp [updateFirstMatch] at h
  | cons hd tl ih =>
    intro updated h kp hkp
    obtain ⟨k, p⟩ := hd
    by_cases hhd : p.cc = some cc
    · simp only [updateFirstMatch, if_pos hhd, Option.some.injEq] at h
      subst h
      rcases List.mem_cons.mp hkp with heq | hmem
      · right; rw [heq]
      · left; exact List.mem_cons_of_mem _ hmem
    · simp only [updateFirstMatch, if_neg hhd, Option.map_eq_some'] at h
      obtain ⟨r, hr, hcons⟩ := h
      subst hcons
      rcases List.mem_cons.mp hkp with heq | hmem
      · left; exact heq ▸ List.mem_cons_self _ _
      · rcases ih r hr kp hmem with hin | hw
        · left; exact List.mem_cons_of_mem _ hin
        · right; exact hw

/-- `setWeightById` never adds, removes or re-keys entries. -/
lemma setWeightById_map_fst (promptId : String) (weight : ℚ) :
    ∀ s : PromptCollection,
      (setWeightById promptId weight s).map Prod.fst = s.map Prod.fst := by
  intro s
  induction s with
  | nil => rfl
  | cons hd tl ih =>
    obtain ⟨k, p⟩ := hd
    by_cases hk : k = promptId
    · simp [setWeightById, if_pos hk]
    · simp [setWeightById, if_neg hk, ih]

/-- Every entry after `setWeightById` is an original entry or carries the
new weight. -/
lemma mem_setWeightById (promptId : String) (weight : ℚ) :
    ∀ (s : PromptCollection) (kp : String × Prompt),
      kp ∈ setWeightById promptId weight s → kp ∈ s ∨ kp.2.weight = weight := by
  intro s
  induction s with
  | nil => intro kp h; simp [setWeightById] at h
  | cons hd tl ih =>
    intro kp h
    obtain ⟨k, p⟩ := hd
    by_cases hk : k = promptId
    · rw [setWeightById, if_pos hk] at h
      rcases List.mem_cons.mp h with heq | hmem
      · right; rw [heq]
      · left; exact List.mem_cons_of_mem _ hmem
    · rw [setWeightById, if_neg hk] at h
      rcases List.mem_cons.mp h with heq | hmem
      · left; exact heq ▸ List.mem_cons_self _ _
      · rcases ih kp hmem with hin | hw
        · left; exact List.mem_cons_of_mem _ hin
        · right; exact hw

/-- Unfolding `handleMidiControlChange` when the scan found a match. -/
lemma handleMidiControlChange_of_match {s updated : PromptCollection} {cc value : ℤ}
    (hu : updateFirstMatch cc value s = some updated) :
    handleMidiControlChange s cc value = (updated, [EmittedEvent.promptsChanged updated]) := by
  unfold handleMidiControlChange
  rw [hu]

/-- Unfolding `handleMidiControlChange` when the scan found nothing. -/
lemma handleMidiControlChange_of_no_match {s : PromptCollection} {cc value : ℤ}
    (hu : updateFirstMatch cc value s = none) :
    handleMidiControlChange s cc value = (s, []) := by
  unfold handleMidiControlChange
  rw [hu]

/-! ### Concrete data used by the witnesses -/

/-- Demo prompt "A", bound to CC 1, weight 0. -/
def promptA : Prompt := ⟨"A", "Bossa Nova", 0, "#9900ff", some 1⟩

/-- Demo prompt "B", also bound to CC 1 (deliberate duplicate), weight 0. -/
def promptB : Prompt := ⟨"B", "Chillwave", 0, "#5200ff", some 1⟩

/-- Demo collection with a duplicate CC assignment, "A" first. -/
def demoPrompts : PromptCollection := [("A", promptA), ("B", promptB)]

/-- Demo prompt with an in-range weight and no CC binding. -/
def promptC : Prompt := ⟨"C", "Drum and Bass", 1 / 5, "#ff25f6", none⟩

/-- Demo collection holding only `promptC`. -/
def demoSlider : PromptCollection := [("C", promptC)]

/-! ### The claims -/

/-- C1: for every incoming control-change event `{cc, value}` with `value`
in `[0, 127]` and a prompt bound to that `cc` (the first prompt whose `cc`
field equals the incoming one), `handleMidiControlChange` sets the bound
prompt's weight to exactly `value / 127` — the exact result of the
division, with no rounding and no extra clamping. -/
theorem midi_value_sets_weight_exact (s : PromptCollection) (cc value : ℤ) (i : ℕ)
    (k : String) (p : Prompt)
    (_hv0 : 0 ≤ value) (_hv1 : value ≤ 127)
    (hfirst : ∀ m, m < i → ∀ kp, s.get? m = some kp → kp.2.cc ≠ some cc)
    (hget : s.get? i = some (k, p)) (hmatch : p.cc = some cc) :
    ∃ q : Prompt, (handleMidiControlChange s cc value).1.get? i = some (k, q) ∧
      q.weight = (value : ℚ) / 127 := by
  obtain ⟨updated, hu, hgi, _⟩ := updateFirstMatch_get? cc value s i k p hfirst hget hmatch
  rw [handleMidiControlChange_of_match hu]
  exact ⟨{ p with weight := (value : ℚ) / 127 }, hgi, rfl⟩

/-- Witness for C1: on the demo collection, CC 1 with data byte 64 sets
prompt "A"'s weight to exactly 64 / 127. -/
theorem midi_value_sets_weight_exact_witness :
    ∃ q : Prompt, (handleMidiControlChange demoPrompts 1 64).1.get? 0 = some ("A", q) ∧
      q.weight = (64 : ℚ) / 127 :=
  midi_value_sets_weight_exact demoPrompts 1 64 0 "A" promptA (by decide) (by decide)
    (fun m hm => absurd hm (Nat.not_lt_zero m)) rfl rfl

/-- C3: `handleSliderChange` with a `promptId` not present in the
collection leaves the collection unchanged and emits no `prompts-changed`
event: a silent no-op. -/
theorem slider_unknown_id_noop (s : PromptCollection) (promptId : String) (weight : ℚ)
    (h : ∀ kp ∈ s, kp.1 ≠ promptId) :
    handleSliderChange s promptId weight = (s, []) := by
  have hid : hasId s promptId = false := by
    simp only [hasId, List.any_eq_false, decide_eq_true_eq]
    exact h
  simp [handleSliderChange, hid]

/-- Witness for C3: a slider change for the absent id "Z" leaves the demo
collection untouched and emits nothing. -/
theorem slider_unknown_id_noop_witness :
    handleSliderChange demoPrompts "Z" (1 / 2) = (demoPrompts, []) :=
  slider_unknown_id_noop demoPrompts "Z" (1 / 2) (by decide)

/-- C10: a control-change event whose `cc` matches no prompt leaves every
prompt unchanged and emits no `prompts-changed` event. -/
theorem midi_no_match_noop (s : PromptCollection) (cc value : ℤ)
    (h : ∀ kp ∈ s, kp.2.cc ≠ some cc) :
    handleMidiControlChange s cc value = (s, []) :=
  handleMidiControlChange_of_no_match (updateFirstMatch_eq_none cc value s h)

/-- Witness for C10: CC 9 is bound to no demo prompt, so the event is a
no-op and emits nothing. -/
theorem midi_no_match_noop_witness :
    handleMidiControlChange demoPrompts 9 64 = (demoPrompts, []) :=
  midi_no_match_noop demoPrompts 9 64 (by decide)

/-- C2: when two prompts share the same `cc` assignment and `p1` (at
position `i`, the earliest prompt bound to that `cc`) appears before `p2`
(at position `j`), a control-change event for that `cc` updates only
`p1`'s weight and leaves `p2` entirely unchanged. -/
theorem duplicate_cc_first_match_wins (s : PromptCollection) (cc value : ℤ)
    (i j : ℕ) (k1 k2 : String) (p1 p2 : Prompt)
    (hij : i < j)
    (hfirst : ∀ m, m < i → ∀ kp, s.get? m = some kp → kp.2.cc ≠ some cc)
    (hg1 : s.get? i = some (k1, p1)) (hm1 : p1.cc = some cc)
    (hg2 : s.get? j = some (k2, p2)) (_hm2 : p2.cc = some cc) :
    (handleMidiControlChange s cc value).1.get? i
        = some (k1, { p1 with weight := (value : ℚ) / 127 }) ∧
    (handleMidiControlChange s cc value).1.get? j = some (k2, p2) := by
  obtain ⟨updated, hu, hgi, hothers⟩ := updateFirstMatch_get? cc value s i k1 p1 hfirst hg1 hm1
  rw [handleMidiControlChange_of_match hu]
  refine ⟨hgi, ?_⟩
  rw [hothers j (Ne.symm (Nat.ne_of_lt hij))]
  exact hg2

/-- Witness for C2, the spec's scenario: prompts `A` and `B` both bound to
CC 1, `A` first, both at weight 0; `control-change{cc:1, value:127}`
yields `A.weight == 1.0` and `B.weight == 0.0`. -/
theorem duplicate_cc_first_match_wins_witness :
    (handleMidiControlChange demoPrompts 1 127).1.get? 0
        = some ("A", { promptA with weight := 1 }) ∧
    (handleMidiControlChange demoPrompts 1 127).1.get? 1 = some ("B", promptB) := by
  have h := duplicate_cc_first_match_wins demoPrompts 1 127 0 1 "A" "B" promptA promptB
    (by decide) (fun m hm => absurd hm (Nat.not_lt_zero m)) rfl rfl rfl rfl
  norm_num at h
  exact h

/-- C6: a control-change event modifies only the weight of the first
prompt whose `cc` equals the incoming one; that prompt's key and its
`promptId`, `text`, `color` and `cc` fields are preserved, and every
other position of the collection is left unchanged. -/
theorem midi_frame_effect (s : PromptCollection) (cc value : ℤ) (i : ℕ)
    (k : String) (p : Prompt)
    (hfirst : ∀ m, m < i → ∀ kp, s.get? m = some kp → kp.2.cc ≠ some cc)
    (hget : s.get? i = some (k, p)) (hmatch : p.cc = some cc) :
    (handleMidiControlChange s cc value).1.get? i
        = some (k, ⟨p.promptId, p.text, (value : ℚ) / 127, p.color, p.cc⟩) ∧
    ∀ j, j ≠ i → (handleMidiControlChange s cc value).1.get? j = s.get? j := by
  obtain ⟨updated, hu, hgi, hothers⟩ := updateFirstMatch_get? cc value s i k p hfirst hget hmatch
  rw [handleMidiControlChange_of_match hu]
  exact ⟨hgi, hothers⟩

/-- Witness for C6: on the demo collection, CC 1 with value 64 rewrites
only position 0's weight, all its other fields and position 1 intact. -/
theorem midi_frame_effect_witness :
    (handleMidiControlChange demoPrompts 1 64).1.get? 0
        = some ("A", ⟨promptA.promptId, promptA.text, (64 : ℚ) / 127,
            promptA.color, promptA.cc⟩) ∧
    ∀ j, j ≠ 0 → (handleMidiControlChange demoPrompts 1 64).1.get? j = demoPrompts.get? j :=
  midi_frame_effect demoPrompts 1 64 0 "A" promptA
    (fun m hm => absurd hm (Nat.not_lt_zero m)) rfl rfl

/-- C4: every successful weight mutation — a `handleMidiControlChange`
whose `cc` matches some prompt, or a `handleSliderChange` whose
`promptId` is present — emits exactly one `prompts-changed` event whose
`detail` is the complete current prompt collection. -/
theorem mutation_emits_single_full_snapshot (s : PromptCollection) (cc value : ℤ)
    (promptId : String) (weight : ℚ) :
    ((∃ kp ∈ s, kp.2.cc = some cc) →
      (handleMidiControlChange s cc value).2
        = [EmittedEvent.promptsChanged (handleMidiControlChange s cc value).1]) ∧
    ((∃ kp ∈ s, kp.1 = promptId) →
      (handleSliderChange s promptId weight).2
        = [EmittedEvent.promptsChanged (handleSliderChange s promptId weight).1]) := by
  constructor
  · intro h
    obtain ⟨updated, hu⟩ := Option.isSome_iff_exists.mp (updateFirstMatch_isSome cc value s h)
    rw [handleMidiControlChange_of_match hu]
  · intro h
    have hid : hasId s promptId = true := by
      simp only [hasId, List.any_eq_true, decide_eq_true_eq]
      exact h
    simp [handleSliderChange, hid]

/-- Witness for C4: on the demo collection, a matched CC event and a
slider change on the present id "B" each emit exactly the one
`prompts-changed` event carrying the whole resulting collection. -/
theorem mutation_emits_single_full_snapshot_witness :
    (handleMidiControlChange demoPrompts 1 64).2
        = [EmittedEvent.promptsChanged (handleMidiControlChange demoPrompts 1 64).1] ∧
    (handleSliderChange demoPrompts "B" (1 / 2)).2
        = [EmittedEvent.promptsChanged (handleSliderChange demoPrompts "B" (1 / 2)).1] :=
  ⟨(mutation_emits_single_full_snapshot demoPrompts 1 64 "B" (1 / 2)).1
      ⟨("A", promptA), by decide, rfl⟩,
   (mutation_emits_single_full_snapshot demoPrompts 1 64 "B" (1 / 2)).2
      ⟨("B", promptB), by decide, rfl⟩⟩

/-- C7: neither `handleMidiControlChange` nor `handleSliderChange` adds or
removes a prompt: the sequence of promptId keys, in insertion order, is
identical before and after either call, for every input. -/
theorem no_prompt_added_or_removed (s : PromptCollection) (cc value : ℤ)
    (promptId : String) (weight : ℚ) :
    (handleMidiControlChange s cc value).1.map Prod.fst = s.map Prod.fst ∧
    (handleSliderChange s promptId weight).1.map Prod.fst = s.map Prod.fst := by
  constructor
  · cases hu : updateFirstMatch cc value s with
    | none => rw [handleMidiControlChange_of_no_match hu]
    | some updated =>
      rw [handleMidiControlChange_of_match hu]
      exact updateFirstMatch_map_fst cc value s updated hu
  · by_cases hid : hasId s promptId = true
    · simp only [handleSliderChange, hid, if_true]
      exact setWeightById_map_fst promptId weight s
    · simp only [handleSliderChange, if_neg hid]

/-- C5 counterexample: the claim quantifies over all inputs, but the code
clamps nothing. Starting from a collection whose only weight is 1/5 (so
the invariant holds before the call), `handleSliderChange` with the
out-of-range weight 2 stores 2, violating `weight ≤ 1`. -/
theorem weight_range_counterexample :
    (∀ kp ∈ demoSlider, 0 ≤ kp.2.weight ∧ kp.2.weight ≤ 1) ∧
    ¬ (∀ kp ∈ (handleSliderChange demoSlider "C" 2).1,
        0 ≤ kp.2.weight ∧ kp.2.weight ≤ 1) := by
  have hcalc : (handleSliderChange demoSlider "C" 2).1
      = [("C", { promptC with weight := 2 })] := rfl
  constructor
  · intro kp hkp
    simp only [demoSlider, List.mem_singleton] at hkp
    subst hkp
    constructor <;> norm_num [promptC]
  · intro h
    have h2 := (h ("C", { promptC with weight := 2 })
      (by rw [hcalc]; exact List.mem_singleton_self _)).2
    norm_num at h2

/-- C5 amended: when the inputs are in their advertised ranges — the MIDI
data byte in `[0, 127]` and the slider weight already normalized to
`[0, 1]` — every weight is still within `[0.0, 1.0]` after either
mutation, given every weight was within `[0.0, 1.0]` before. -/
theorem weight_range_invariant (s : PromptCollection) (cc value : ℤ)
    (promptId : String) (weight : ℚ)
    (hbefore : ∀ kp ∈ s, 0 ≤ kp.2.weight ∧ kp.2.weight ≤ 1)
    (hv0 : 0 ≤ value) (hv1 : value ≤ 127)
    (hw0 : 0 ≤ weight) (hw1 : weight ≤ 1) :
    (∀ kp ∈ (handleMidiControlChange s cc value).1,
      0 ≤ kp.2.weight ∧ kp.2.weight ≤ 1) ∧
    (∀ kp ∈ (handleSliderChange s promptId weight).1,
      0 ≤ kp.2.weight ∧ kp.2.weight ≤ 1) := by
  have hq0 : (0 : ℚ) ≤ (value : ℚ) / 127 := by
    apply div_nonneg _ (by norm_num)
    exact_mod_cast hv0
  have hq1 : (value : ℚ) / 127 ≤ 1 := by
    rw [div_le_one (by norm_num)]
    exact_mod_cast hv1
  constructor
  · cases hu : updateFirstMatch cc value s with
    | none =>
      rw [handleMidiControlChange_of_no_match hu]
      exact hbefore
    | some updated =>
      rw [handleMidiControlChange_of_match hu]
      intro kp hkp
      rcases mem_updateFirstMatch cc value s updated hu kp hkp with hin | hw
      · exact hbefore kp hin
      · rw [hw]
        exact ⟨hq0, hq1⟩
  · by_cases hid : hasId s promptId = true
    · simp only [handleSliderChange, hid, if_true]
      intro kp hkp
      rcases mem_setWeightById promptId weight s kp hkp with hin | hw
      · exact hbefore kp hin
      · rw [hw]
        exact ⟨hw0, hw1⟩
    · simp only [handleSliderChange, if_neg hid]
      exact hbefore

/-- Witness for the amended C5: on the demo collection (weights 0), CC 1
with value 127 and a slider change of "A" to 1/2 both keep all weights in
`[0, 1]`. -/
theorem weight_range_invariant_witness :
    (∀ kp ∈ (handleMidiControlChange demoPrompts 1 127).1,
      0 ≤ kp.2.weight ∧ kp.2.weight ≤ 1) ∧
    (∀ kp ∈ (handleSliderChange demoPrompts "A" (1 / 2)).1,
      0 ≤ kp.2.weight ∧ kp.2.weight ≤ 1) :=
  weight_range_invariant demoPrompts 1 127 "A" (1 / 2) (by decide)
    (by decide) (by decide) (by norm_num) (by norm_num)

/-- C8: when the Device Access Adapter reports MIDI as unsupported, the
render output contains the static fallback notice and no slider control;
when supported, it contains exactly the per-prompt sliders and no
fallback notice — a branch, not a degraded retry mode. -/
theorem unsupported_renders_fallback (prompts : PromptCollection) :
    Node.noMidiNotice ∈ render false prompts ∧
    (render false prompts).countP Node.isSlider = 0 ∧
    (render true prompts).filter Node.isSlider = renderSliders prompts ∧
    (render true prompts).countP (fun n => decide (n = Node.noMidiNotice)) = 0 := by
  refine ⟨?_, ?_, ?_, ?_⟩
  · simp [render]
  · rfl
  · show (renderSliders prompts ++ _).filter Node.isSlider = renderSliders prompts
    rw [List.filter_append]
    have hfix : (List.filter Node.isSlider
        [Node.playPauseButton, Node.visualizer,
          Node.filteredPromptListElement, Node.repubInfo]) = [] := rfl
    rw [hfix, List.append_nil, List.filter_eq_self]
    intro a ha
    simp only [renderSliders, List.mem_map] at ha
    obtain ⟨kp, _, rfl⟩ := ha
    rfl
  · show (renderSliders prompts ++ _).countP _ = 0
    rw [List.countP_append]
    have hfix : (List.countP (fun n => decide (n = Node.noMidiNotice))
        [Node.playPauseButton, Node.visualizer,
          Node.filteredPromptListElement, Node.repubInfo]) = 0 := rfl
    rw [hfix, Nat.add_zero, List.countP_eq_zero]
    intro a ha
    simp only [renderSliders, List.mem_map] at ha
    obtain ⟨kp, _, rfl⟩ := ha
    simp

/-- C9 counterexample: `addFilteredPrompt` dereferences the result of
`shadowRoot?.querySelector('filtered-prompt-list')` without a null
check; when the query yields nothing (e.g. called before the first
render) the call throws a `TypeError` instead of completing normally or
reporting via an event. -/
theorem add_filtered_prompt_throws_counterexample :
    addFilteredPrompt none "Funk" = JsResult.thrown "TypeError" := rfl

/-- C9 amended: `handleMidiControlChange` and `handleSliderChange` are
total and never throw, and `addFilteredPrompt` completes normally
whenever the `filtered-prompt-list` element is found — but it does throw
a `TypeError` when the query yields nothing. -/
theorem add_filtered_prompt_ok_iff_queried (l : FilteredPromptList) (t : String) :
    addFilteredPrompt (some l) t = JsResult.ok (l.addPrompt t) ∧
    (addFilteredPrompt none t).throws = true :=
  ⟨rfl, rfl⟩

end PromptDjMidi
